import Mathlib

/-!
# Verification of the `ImageCacheLoader` subsystem of `cineMaticAnalyser.py`

Shallow embedding of the asynchronous image acquisition and rendering
cache (class `ImageCacheLoader`, `cineMaticAnalyser.py` lines 281-377):
the cache store, the request queue, the source resolver
(`_fetch_image`), the thumbnail compositor (worker lines 340-358), the
worker loop (`_worker`) and the delivery dispatcher
(`target_label.after(0, assign)`).

Modelling conventions:
* A decoded bitmap (`PIL.Image`) is modelled by its pixel dimensions
  (`RawImage`); pixel contents play no role in any property considered
  here.  `img.convert("RGB")` preserves dimensions and is therefore the
  identity of the model.
* The filesystem and the network are an explicit environment `Env`:
  `net url` is the combined outcome of the network step (`some img`
  exactly when `requests.get` succeeds with status 200 and the body
  decodes; every other outcome, including a raised exception, is
  `none`, matching the `try/except` that swallows it), `fsExists` is
  `os.path.exists`, and `fsDecode p = none` models `Image.open(p)`
  raising (the exception is swallowed by the surrounding `try`).
* Python exceptions inside the worker body are modelled by `Option`:
  a `none` outcome of a step is an exception (or absence) that the
  enclosing `try/except Exception` swallows, so the worker drops the
  request and loops.
* `ImageOps.contain` computes the scaled size with float arithmetic and
  Python `round` (round half to even); the model uses exact rational
  arithmetic with the same half-to-even rounding (`rndHalfEven`).
* Python `int(s, 16)` on the two-character slices is modelled by a hex
  parser that succeeds exactly on non-empty all-hex-digit strings (the
  extra tolerances of CPython `int` - surrounding whitespace, sign,
  `0x` prefix - are irrelevant to every string considered here).
* The two threads are modelled explicitly: `request` runs on the UI
  thread and writes `labels` directly (the synchronous cache-hit
  apply), while `workerStep` runs one iteration of the worker loop and
  may only append to `uiPending`, the model of the Tk event queue fed
  by `after(0, assign)`; `uiDrain` is the UI thread executing those
  pending closures.  Widget destruction (the `try/except` inside
  `assign`) is outside the scope of every claim and is not modelled:
  every label id denotes a live widget.
-/

namespace CineMatic

/-- A decoded in-memory bitmap (`PIL.Image`); only its dimensions are
relevant to the properties verified here. -/
structure RawImage where
  width : Nat
  height : Nat
deriving DecidableEq, Repr

/-- An RGB color triple, as produced by the hex decode on line 345. -/
abbrev Color := Nat × Nat × Nat

/-- Python `s.startswith(pre)` for the string model. -/
def pyStartsWith (s pre : String) : Bool :=
  pre.data.isPrefixOf s.data

/-- Python slice `s[a:b]` (clamping, as Python slices do). -/
def pySlice (s : String) (a b : Nat) : List Char :=
  (s.data.drop a).take (b - a)

/-- Value of a single hexadecimal digit, `none` on a non-digit. -/
def hexDigit (c : Char) : Option Nat :=
  if c.toNat ≥ 48 ∧ c.toNat ≤ 57 then some (c.toNat - 48)
  else if c.toNat ≥ 97 ∧ c.toNat ≤ 102 then some (c.toNat - 87)
  else if c.toNat ≥ 65 ∧ c.toNat ≤ 70 then some (c.toNat - 55)
  else none

/-- Python `int(s, 16)`: succeeds exactly on a non-empty string of hex
digits, `none` models the raised `ValueError`. -/
def hexVal (cs : List Char) : Option Nat :=
  match cs with
  | [] => none
  | _ =>
    cs.foldl
      (fun acc c =>
        match acc, hexDigit c with
        | some a, some d => some (16 * a + d)
        | _, _ => none)
      (some 0)

/-- Line 345 of the source:
`bg_rgb = tuple(int(bg_hex[i:i+2], 16) for i in (1, 3, 5)) if bg_hex.startswith('#') else (24, 24, 24)`.
`none` models the `ValueError` raised by `int` when a slice of a
`#`-prefixed string is not valid hex (swallowed only by the worker's
outer catch-all, so the request is dropped). -/
def bgDecode (bg_hex : String) : Option Color :=
  if pyStartsWith bg_hex "#" then
    match hexVal (pySlice bg_hex 1 3), hexVal (pySlice bg_hex 3 5),
          hexVal (pySlice bg_hex 5 7) with
    | some r, some g, some b => some (r, g, b)
    | _, _, _ => none
  else some (24, 24, 24)

/-- Round half to even of `num / den`, the rounding mode of Python
`round` used inside `ImageOps.contain`. -/
def rndHalfEven (num den : Nat) : Nat :=
  if 2 * (num % den) < den then num / den
  else if den < 2 * (num % den) then num / den + 1
  else if (num / den) % 2 = 0 then num / den else num / den + 1

/-- `PIL.ImageOps.contain((w, h), (tw, th))`: scale to fit inside the
target, preserving aspect ratio; the comparison of the two aspect
ratios and the rounding are exact-rational renderings of the float
arithmetic of the library source. -/
def contain (w h tw th : Nat) : Nat × Nat :=
  if w * th = tw * h then (tw, th)
  else if tw * h < w * th then (tw, rndHalfEven (h * tw) w)
  else (rndHalfEven (w * th) h, th)

/-- The composited thumbnail of worker lines 340-358: a
`width × height` canvas filled with `bg`, the `contain`-scaled source
pasted centred at `(pasteX, pasteY)`, with the rounded-corner mask
applied when the masking primitive is available. -/
structure Surface where
  width : Nat
  height : Nat
  bg : Color
  imgW : Nat
  imgH : Nat
  pasteX : Nat
  pasteY : Nat
  rounded : Bool
deriving DecidableEq, Repr

/-- The environment a resolution/composition step observes: network,
filesystem, the theme's `card` color string, and availability of the
rounded-rectangle masking primitive (lines 351-356 degrade to an
unmasked surface when it raises). -/
structure Env where
  net : String → Option RawImage
  fsExists : String → Bool
  fsDecode : String → Option RawImage
  cardHex : String
  maskOk : Bool

/-- The fallback walk of lines 324-330: first path that exists and
opens without exception wins; an entry that exists but fails to open
is skipped (`except Exception: continue`). -/
def firstFallback (env : Env) : List String → Option RawImage
  | [] => none
  | fp :: rest =>
    if env.fsExists fp then
      match env.fsDecode fp with
      | some img => some img
      | none => firstFallback env rest
    else firstFallback env rest

/-- `ImageCacheLoader._fetch_image` (lines 304-330): network step, then
local-path step, then the fallback walk; every failure of a step
(exception or absence) falls through to the next, and total failure is
`none` - the function never raises. -/
def fetch_image (env : Env) (fallbacks : List String) (url : String) :
    Option RawImage :=
  let step1 : Option RawImage :=
    if !url.data.isEmpty && pyStartsWith url "http" then env.net url
    else none
  match step1 with
  | some img => some img
  | none =>
    let step2 : Option RawImage :=
      if !url.data.isEmpty && env.fsExists url then env.fsDecode url
      else none
    match step2 with
    | some img => some img
    | none => firstFallback env fallbacks

/-- The tuple enqueued by `request` (line 302):
`(url, "GET", width, height, target_label)`; widgets are identified by
a numeric handle. -/
structure RenderRequest where
  url : String
  method : String
  width : Nat
  height : Nat
  label : Nat
deriving DecidableEq, Repr

/-- The mutable state of the loader plus the UI it serves: `cache` is
`self.cache`, `queue` is `self.queue` (FIFO, front = oldest), `labels`
gives the surface currently displayed by each widget, and `uiPending`
is the Tk event queue of `assign` closures scheduled by
`after(0, assign)` and not yet executed by the UI thread. -/
structure LoaderState where
  cache : String → Option Surface
  queue : List RenderRequest
  labels : Nat → Option Surface
  uiPending : List (Nat × Surface)

/-- `ImageCacheLoader.request` (lines 297-302), executed on the UI
thread: on a cache hit the surface is applied to the destination
synchronously (a direct `labels` write, lines 299-300) and nothing is
enqueued; on a miss the request tuple is enqueued and the destination
is untouched. -/
def request (s : LoaderState) (url : String) (lbl : Nat) (w h : Nat) :
    LoaderState :=
  match s.cache url with
  | some surf =>
    { s with labels := fun l => if l = lbl then some surf else s.labels l }
  | none =>
    { s with queue := s.queue ++ [⟨url, "GET", w, h, lbl⟩] }

/-- The compositor, worker lines 340-358: resize with
`ImageOps.contain`, decode the theme's card color (a `none` here is the
`ValueError` of line 345 escaping to the worker's catch-all), allocate
the background canvas, paste centred with integer-divided offsets,
apply the rounded mask when available. -/
def composite (img : RawImage) (w h : Nat) (bg_hex : String)
    (maskOk : Bool) : Option Surface :=
  let resized := contain img.width img.height w h
  match bgDecode bg_hex with
  | none => none
  | some bg =>
    some { width := w, height := h, bg := bg,
           imgW := resized.1, imgH := resized.2,
           pasteX := (w - resized.1) / 2, pasteY := (h - resized.2) / 2,
           rounded := maskOk }

/-- One iteration of `ImageCacheLoader._worker` (lines 333-377),
executed on the worker thread: an empty queue is the
`queue.Empty → continue` branch; a resolution failure discards the
request (lines 337-339); a compositor exception is swallowed by the
catch-all of line 371 and also discards the request; on success the
surface is stored in the cache (line 359) and the assignment is
scheduled onto the UI thread via `after(0, assign)` (line 368) -
`labels` is never written here. -/
def workerStep (env : Env) (fallbacks : List String) (s : LoaderState) :
    LoaderState :=
  match s.queue with
  | [] => s
  | req :: rest =>
    match fetch_image env fallbacks req.url with
    | none => { s with queue := rest }
    | some img =>
      match composite img req.width req.height env.cardHex env.maskOk with
      | none => { s with queue := rest }
      | some surf =>
        { s with
            queue := rest,
            cache := fun u => if u = req.url then some surf else s.cache u,
            uiPending := s.uiPending ++ [(req.label, surf)] }

/-- The UI event loop executing scheduled `assign` closures in order;
later assignments to the same label overwrite earlier ones. -/
def applyPending (labels : Nat → Option Surface) :
    List (Nat × Surface) → (Nat → Option Surface)
  | [] => labels
  | (l, sf) :: rest =>
    applyPending (fun x => if x = l then some sf else labels x) rest

/-- The UI thread draining its event queue: every pending `assign`
closure runs on the UI thread, then the queue is empty. -/
def uiDrain (s : LoaderState) : LoaderState :=
  { s with labels := applyPending s.labels s.uiPending, uiPending := [] }

/-! ## Helper lemmas -/

/-- `rndHalfEven` never rounds a value bounded by `b` above `b`. -/
theorem rndHalfEven_le (num den b : Nat) (hden : 0 < den)
    (h : num ≤ den * b) : rndHalfEven num den ≤ b := by
  have hmod := Nat.div_add_mod num den
  have hq : num / den ≤ b := by
    have h1 : den * (num / den) ≤ num := by omega
    exact Nat.le_of_mul_le_mul_left (le_trans h1 h) hden
  have hsucc : 0 < num % den → num / den + 1 ≤ b := by
    intro hr
    have h1 : den * (num / den) < num := by omega
    exact Nat.lt_of_mul_lt_mul_left (lt_of_lt_of_le h1 h)
  unfold rndHalfEven
  split
  · exact hq
  · split
    · exact hsucc (by omega)
    · split
      · exact hq
      · exact hsucc (by omega)

/-- The fallback walk is the first list entry that exists and decodes,
in list order. -/
theorem firstFallback_eq_find (env : Env) (l : List String) :
    firstFallback env l =
      (l.find? (fun fp => env.fsExists fp && (env.fsDecode fp).isSome)).bind
        env.fsDecode := by
  induction l with
  | nil => rfl
  | cons fp rest ih =>
    cases hex : env.fsExists fp with
    | false => simp [firstFallback, List.find?, hex, ih]
    | true =>
      cases hdec : env.fsDecode fp with
      | none => simp [firstFallback, List.find?, hex, hdec, ih]
      | some img => simp [firstFallback, List.find?, hex, hdec]

/-- When the network step yields nothing and the reference is not an
existing decodable local file, `_fetch_image` reduces to the fallback
walk. -/
theorem fetch_image_eq_fallback (env : Env) (fallbacks : List String)
    (url : String) (hnet : env.net url = none)
    (hloc : env.fsExists url = false ∨ env.fsDecode url = none) :
    fetch_image env fallbacks url = firstFallback env fallbacks := by
  unfold fetch_image
  rcases hloc with hloc | hloc
  · simp [hnet, hloc]
  · simp [hnet, hloc]

/-- Executing the pending UI closures in order leaves each label with
the surface of the last closure scheduled for it. -/
theorem applyPending_last (labels : Nat → Option Surface)
    (l : List (Nat × Surface)) (a : Nat) (sf : Surface) :
    applyPending labels (l ++ [(a, sf)]) a = some sf := by
  induction l generalizing labels with
  | nil => simp [applyPending]
  | cons p rest ih =>
    cases p with
    | mk b sg => simpa [applyPending] using ih _

/-! ## Claim theorems -/

/-- C8: for every raw image of size `(w, h)` with `w, h > 0` and every
target `(tw, th)` with `tw, th > 0`, the scaled intermediate produced
by the compositor's scale-to-fit step (`ImageOps.contain`, worker line
342) preserves the aspect ratio: the larger relative dimension equals
the corresponding target bound and the other dimension is at most its
target bound. -/
theorem contain_aspect (w h tw th : Nat) (hw : 0 < w) (hh : 0 < h)
    (htw : 0 < tw) (hth : 0 < th) :
    ((contain w h tw th).1 ≤ tw ∧ (contain w h tw th).2 ≤ th) ∧
    (tw * h ≤ w * th → (contain w h tw th).1 = tw) ∧
    (w * th ≤ tw * h → (contain w h tw th).2 = th) := by
  unfold contain
  by_cases h1 : w * th = tw * h
  · rw [if_pos h1]
    exact ⟨⟨le_refl _, le_refl _⟩, fun _ => rfl, fun _ => rfl⟩
  · rw [if_neg h1]
    by_cases h2 : tw * h < w * th
    · rw [if_pos h2]
      refine ⟨⟨le_refl _, ?_⟩, fun _ => rfl, fun hle => absurd h2 (not_lt.mpr hle)⟩
      exact rndHalfEven_le (h * tw) w th hw
        (by rw [Nat.mul_comm h tw]; exact le_of_lt h2)
    · rw [if_neg h2]
      have h3 : w * th < tw * h :=
        lt_of_le_of_ne (Nat.le_of_not_lt h2) h1
      refine ⟨⟨?_, le_refl _⟩, fun hle => absurd h3 (not_lt.mpr hle), fun _ => rfl⟩
      exact rndHalfEven_le (w * th) h tw hh
        (by rw [Nat.mul_comm h tw]; exact le_of_lt h3)

/-- Witness for C8 at a concrete landscape input: a 1000×500 source
fit into 140×210 touches the width bound and stays under the height
bound. -/
theorem contain_aspect_witness :
    (contain 1000 500 140 210).1 = 140 ∧ (contain 1000 500 140 210).2 ≤ 210 :=
  ⟨(contain_aspect 1000 500 140 210 (by decide) (by decide) (by decide)
      (by decide)).2.1 (by decide),
   (contain_aspect 1000 500 140 210 (by decide) (by decide) (by decide)
      (by decide)).1.2⟩

/-- C3: for every reference for which the network step produces no
image and which does not name an existing readable local file,
`_fetch_image` returns exactly what the fallback walk returns: the
first `FallbackList` entry that exists and decodes, in the list's
fixed order.  The embedding is a pure function of the environment, so
repeated calls under the same filesystem state return the same
entry. -/
theorem resolve_fallback_first (env : Env) (fallbacks : List String)
    (url : String) (hnet : env.net url = none)
    (hloc : env.fsExists url = false ∨ env.fsDecode url = none) :
    fetch_image env fallbacks url = firstFallback env fallbacks ∧
    fetch_image env fallbacks url =
      (fallbacks.find? (fun fp => env.fsExists fp && (env.fsDecode fp).isSome)).bind
        env.fsDecode :=
  ⟨fetch_image_eq_fallback env fallbacks url hnet hloc,
   (fetch_image_eq_fallback env fallbacks url hnet hloc).trans
     (firstFallback_eq_find env fallbacks)⟩

/-- C4: when the network step, the local-path step and every
`FallbackList` entry fail, `_fetch_image` returns `none` - every
failure is swallowed inside the function, so nothing propagates into
the worker loop. -/
theorem resolve_total_failure (env : Env) (fallbacks : List String)
    (url : String) (hnet : env.net url = none)
    (hloc : env.fsExists url = false ∨ env.fsDecode url = none)
    (hfb : ∀ fp ∈ fallbacks, env.fsExists fp = false ∨ env.fsDecode fp = none) :
    fetch_image env fallbacks url = none := by
  rw [fetch_image_eq_fallback env fallbacks url hnet hloc,
    firstFallback_eq_find env fallbacks]
  have hfind : fallbacks.find?
      (fun fp => env.fsExists fp && (env.fsDecode fp).isSome) = none := by
    rw [List.find?_eq_none]
    intro fp hfp
    rcases hfb fp hfp with hx | hx <;> simp [hx]
  rw [hfind]
  rfl

/-! ## Concrete test fixtures for the witnesses -/

/-- A small decoded fallback image. -/
def img1 : RawImage := ⟨64, 64⟩

/-- A portrait 300×400 decoded image. -/
def img2 : RawImage := ⟨300, 400⟩

/-- An environment in which the network always fails, the first
fallback asset exists but does not decode, and the second fallback
asset decodes to `img2`; the theme card color is well-formed. -/
def env3 : Env :=
  { net := fun _ => none,
    fsExists := fun p => p == "INF.png" || p == "404.webp",
    fsDecode := fun p => if p == "404.webp" then some img2 else none,
    cardHex := "#102030",
    maskOk := true }

/-- Witness for C3: under `env3`, resolving a dead reference returns
the fallback walk's answer, which is the second fallback entry (the
first exists but does not decode). -/
theorem resolve_fallback_first_witness :
    (fetch_image env3 ["INF.png", "404.webp"] "badurl" =
       firstFallback env3 ["INF.png", "404.webp"] ∧
     fetch_image env3 ["INF.png", "404.webp"] "badurl" =
       (["INF.png", "404.webp"].find?
         (fun fp => env3.fsExists fp && (env3.fsDecode fp).isSome)).bind
         env3.fsDecode) ∧
    fetch_image env3 ["INF.png", "404.webp"] "badurl" = some img2 :=
  ⟨resolve_fallback_first env3 ["INF.png", "404.webp"] "badurl" rfl
     (Or.inl (by decide)),
   by decide⟩

/-- An environment in which every resolution step fails. -/
def envFail : Env :=
  { net := fun _ => none,
    fsExists := fun _ => false,
    fsDecode := fun _ => none,
    cardHex := "#102030",
    maskOk := true }

/-- Witness for C4: with everything failing and an empty fallback
list, resolution returns `none`. -/
theorem resolve_total_failure_witness :
    fetch_image envFail [] "badurl" = none :=
  resolve_total_failure envFail [] "badurl" rfl (Or.inl rfl)
    (by intro fp hfp; cases hfp)

/-- A loader state holding one enqueued request for a reference that
resolves (via the local-path step of `env3`). -/
def sOneReq : LoaderState :=
  { cache := fun _ => none,
    queue := [⟨"404.webp", "GET", 140, 210, 3⟩],
    labels := fun _ => none,
    uiPending := [] }

/-- The surface the compositor produces for `img2` at 140×210 under
the `env3` theme: scaled to 140×187, pasted at (0, 11). -/
def surf2 : Surface :=
  { width := 140, height := 210, bg := (16, 32, 48),
    imgW := 140, imgH := 187, pasteX := 0, pasteY := 11, rounded := true }

/-- An environment whose theme card color string is malformed while
still starting with a hash sign, so line 345 raises `ValueError`. -/
def envBadHex : Env :=
  { net := fun _ => none,
    fsExists := fun p => p == "404.webp",
    fsDecode := fun p => if p == "404.webp" then some img2 else none,
    cardHex := "#zz",
    maskOk := true }

/-- C1 counterexample: with the malformed theme color `"#zz"` (which
does start with a hash sign), the compositor does not substitute the
dark-gray default - the hex decode raises, no surface is produced, and
the worker's catch-all drops the request: after the worker step the
cache has no entry for the reference and nothing was scheduled for the
UI thread, refuting the claim that a malformed color string never
drops a request. -/
theorem composite_malformed_drops :
    bgDecode "#zz" = none ∧
    bgDecode "#zz" ≠ some (24, 24, 24) ∧
    composite img2 140 210 "#zz" true = none ∧
    (workerStep envBadHex ["INF.png"]
      { sOneReq with cache := fun _ => none }).cache "404.webp" = none ∧
    (workerStep envBadHex ["INF.png"]
      { sOneReq with cache := fun _ => none }).uiPending = [] := by
  refine ⟨by decide, by decide, by decide, ?_, ?_⟩ <;> decide

/-- C1 (amended): the compositor allocates the `w × h` canvas filled
with the decoded card color whenever the hex string decodes; a color
string that does not start with a hash sign decodes to the fixed
dark-gray default `(24, 24, 24)`; but a string that starts with a hash
sign and fails hex decoding aborts the composite (the raised
`ValueError` reaches the worker's catch-all and the request is
dropped, producing no surface). -/
theorem composite_background (img : RawImage) (w h : Nat)
    (bg_hex : String) (mk : Bool) :
    (∀ c, bgDecode bg_hex = some c →
       composite img w h bg_hex mk =
         some { width := w, height := h, bg := c,
                imgW := (contain img.width img.height w h).1,
                imgH := (contain img.width img.height w h).2,
                pasteX := (w - (contain img.width img.height w h).1) / 2,
                pasteY := (h - (contain img.width img.height w h).2) / 2,
                rounded := mk }) ∧
    (pyStartsWith bg_hex "#" = false → bgDecode bg_hex = some (24, 24, 24)) ∧
    (bgDecode bg_hex = none → composite img w h bg_hex mk = none) := by
  refine ⟨?_, ?_, ?_⟩
  · intro c hc
    simp [composite, hc]
  · intro hs
    simp [bgDecode, hs]
  · intro hn
    simp [composite, hn]

/-- Witness for C1 (amended): a well-formed hex color yields the
filled canvas; a default-colored canvas results from a hashless
string. -/
theorem composite_background_witness :
    composite ⟨600, 900⟩ 140 210 "#102030" true =
      some { width := 140, height := 210, bg := (16, 32, 48),
             imgW := 140, imgH := 210, pasteX := 0, pasteY := 0,
             rounded := true } ∧
    bgDecode "gray" = some (24, 24, 24) := by
  constructor
  · have h := (composite_background ⟨600, 900⟩ 140 210 "#102030" true).1
      (16, 32, 48) (by decide)
    rw [h]
    decide
  · exact (composite_background ⟨600, 900⟩ 140 210 "gray" true).2.1 (by decide)

/-- C2: the worker never assigns a composited surface directly to a
destination widget from the worker thread.  A worker-loop step, on any
state and any outcome, leaves every label untouched; and for every
processed request whose resolution and compositing succeed, the
assignment is submitted to the UI thread's scheduling primitive
(`after(0, assign)`, modelled by `uiPending`) and takes effect exactly
when the UI thread drains its event queue. -/
theorem worker_delivery_ui_only (env : Env) (fallbacks : List String)
    (s : LoaderState) :
    (workerStep env fallbacks s).labels = s.labels ∧
    (∀ req rest img surf,
       s.queue = req :: rest →
       fetch_image env fallbacks req.url = some img →
       composite img req.width req.height env.cardHex env.maskOk = some surf →
       (workerStep env fallbacks s).uiPending =
         s.uiPending ++ [(req.label, surf)] ∧
       (uiDrain (workerStep env fallbacks s)).labels req.label = some surf) := by
  constructor
  · unfold workerStep
    split
    · rfl
    · split
      · rfl
      · split
        · rfl
        · rfl
  · intro req rest img surf hq himg hsurf
    have hw : workerStep env fallbacks s =
        { s with
            queue := rest,
            cache := fun u => if u = req.url then some surf else s.cache u,
            uiPending := s.uiPending ++ [(req.label, surf)] } := by
      simp only [workerStep, hq, himg, hsurf]
    rw [hw]
    exact ⟨rfl, applyPending_last s.labels s.uiPending req.label surf⟩

/-- Witness for C2: processing the queued request of `sOneReq` under
`env3` leaves label 3 unset; only after the UI thread drains its event
queue does label 3 hold the composited surface. -/
theorem worker_delivery_ui_only_witness :
    (workerStep env3 ["INF.png"] sOneReq).labels 3 = none ∧
    (uiDrain (workerStep env3 ["INF.png"] sOneReq)).labels 3 = some surf2 := by
  have h := worker_delivery_ui_only env3 ["INF.png"] sOneReq
  constructor
  · rw [h.1]
    rfl
  · exact (h.2 ⟨"404.webp", "GET", 140, 210, 3⟩ [] img2 surf2 rfl
      (by decide) (by decide)).2

/-- C5: a `request` for a reference already in the cache applies the
cached surface to the destination synchronously on the calling thread
- queue, cache and UI event queue are untouched, so no fetch, resolve
or composite is re-triggered; a `request` for an absent reference
enqueues the request tuple and leaves the destination (and every other
label) untouched. -/
theorem request_hit_miss (s : LoaderState) (url : String) (lbl : Nat)
    (w h : Nat) :
    (∀ surf, s.cache url = some surf →
       (request s url lbl w h).queue = s.queue ∧
       (request s url lbl w h).cache = s.cache ∧
       (request s url lbl w h).uiPending = s.uiPending ∧
       (request s url lbl w h).labels lbl = some surf ∧
       (∀ l, l ≠ lbl → (request s url lbl w h).labels l = s.labels l)) ∧
    (s.cache url = none →
       (request s url lbl w h).queue = s.queue ++ [⟨url, "GET", w, h, lbl⟩] ∧
       (request s url lbl w h).labels = s.labels ∧
       (request s url lbl w h).cache = s.cache ∧
       (request s url lbl w h).uiPending = s.uiPending) := by
  constructor
  · intro surf hs
    refine ⟨?_, ?_, ?_, ?_, ?_⟩ <;> simp [request, hs]
    intro l hl
    simp [hl]
  · intro hs
    refine ⟨?_, ?_, ?_, ?_⟩ <;> simp [request, hs]

/-- A surface of dimensions 100×80 standing for the result of some
first completed request. -/
def surf0 : Surface :=
  { width := 100, height := 80, bg := (1, 2, 3),
    imgW := 100, imgH := 80, pasteX := 0, pasteY := 0, rounded := false }

/-- A loader state whose cache already holds `surf0` for reference
`"a"`. -/
def sHit : LoaderState :=
  { cache := fun u => if u = "a" then some surf0 else none,
    queue := [],
    labels := fun _ => none,
    uiPending := [] }

/-- A loader state with an empty cache and queue. -/
def sMiss : LoaderState :=
  { cache := fun _ => none,
    queue := [],
    labels := fun _ => none,
    uiPending := [] }

/-- Witness for C5: a hit applies `surf0` synchronously and enqueues
nothing; a miss enqueues the tuple and leaves the labels alone. -/
theorem request_hit_miss_witness :
    ((request sHit "a" 1 140 210).queue = sHit.queue ∧
     (request sHit "a" 1 140 210).labels 1 = some surf0) ∧
    ((request sMiss "a" 1 140 210).queue =
       sMiss.queue ++ [⟨"a", "GET", 140, 210, 1⟩] ∧
     (request sMiss "a" 1 140 210).labels = sMiss.labels) := by
  have h1 := (request_hit_miss sHit "a" 1 140 210).1 surf0 (by decide)
  have h2 := (request_hit_miss sMiss "a" 1 140 210).2 rfl
  exact ⟨⟨h1.1, h1.2.2.2.1⟩, h2.1, h2.2.1⟩

/-- C6: when resolution returns absent for the dequeued request, the
worker discards it with no further effect: the entire state except the
consumed queue entry is unchanged - no cache entry appears, the
destination labels stay in their pre-request state, and nothing is
scheduled for the UI thread. -/
theorem worker_discard_absent (env : Env) (fallbacks : List String)
    (s : LoaderState) (req : RenderRequest) (rest : List RenderRequest)
    (hq : s.queue = req :: rest)
    (habs : fetch_image env fallbacks req.url = none) :
    workerStep env fallbacks s = { s with queue := rest } ∧
    (workerStep env fallbacks s).cache = s.cache ∧
    (workerStep env fallbacks s).labels = s.labels ∧
    (workerStep env fallbacks s).uiPending = s.uiPending := by
  have hw : workerStep env fallbacks s = { s with queue := rest } := by
    simp only [workerStep, hq, habs]
  exact ⟨hw, by rw [hw], by rw [hw], by rw [hw]⟩

/-- A loader state with one request whose reference no resolution step
can satisfy. -/
def sDead : LoaderState :=
  { cache := fun _ => none,
    queue := [⟨"http-missing", "GET", 140, 210, 5⟩],
    labels := fun _ => none,
    uiPending := [] }

/-- Witness for C6: under the all-failing environment the queued
request is consumed and nothing else changes. -/
theorem worker_discard_absent_witness :
    workerStep envFail ["INF.png"] sDead = { sDead with queue := [] } :=
  (worker_discard_absent envFail ["INF.png"] sDead
    ⟨"http-missing", "GET", 140, 210, 5⟩ [] rfl (by decide)).1

/-- C7: two `request` calls for a reference not yet in the cache, both
issued before the worker runs, are both enqueued (the queue performs
no deduplication), the worker resolves and composites both, and both
executions insert a cache entry for the reference with the same
dimensions and background fill (indeed, the identical surface, since
the compositor is deterministic under an unchanged environment). -/
theorem duplicate_requests_processed (env : Env) (fallbacks : List String)
    (s : LoaderState) (url : String) (l1 l2 w h : Nat) (img : RawImage)
    (surf : Surface)
    (hmiss : s.cache url = none)
    (hq : s.queue = [])
    (himg : fetch_image env fallbacks url = some img)
    (hsurf : composite img w h env.cardHex env.maskOk = some surf) :
    (request (request s url l1 w h) url l2 w h).queue =
      [⟨url, "GET", w, h, l1⟩, ⟨url, "GET", w, h, l2⟩] ∧
    (workerStep env fallbacks
      (request (request s url l1 w h) url l2 w h)).cache url = some surf ∧
    (workerStep env fallbacks (workerStep env fallbacks
      (request (request s url l1 w h) url l2 w h))).cache url = some surf ∧
    (workerStep env fallbacks (workerStep env fallbacks
      (request (request s url l1 w h) url l2 w h))).uiPending =
      s.uiPending ++ [(l1, surf), (l2, surf)] := by
  have hfull : request (request s url l1 w h) url l2 w h =
      { s with queue := [⟨url, "GET", w, h, l1⟩, ⟨url, "GET", w, h, l2⟩] } := by
    simp [request, hmiss, hq]
  have hstep1 : workerStep env fallbacks
      { s with queue := [⟨url, "GET", w, h, l1⟩, ⟨url, "GET", w, h, l2⟩] } =
      { s with
          queue := [⟨url, "GET", w, h, l2⟩],
          cache := fun u => if u = url then some surf else s.cache u,
          uiPending := s.uiPending ++ [(l1, surf)] } := by
    simp only [workerStep, himg, hsurf]
  refine ⟨?_, ?_, ?_, ?_⟩
  · rw [hfull]
  · rw [hfull, hstep1]
    simp
  · rw [hfull, hstep1]
    simp only [workerStep, himg, hsurf]
    simp
  · rw [hfull, hstep1]
    simp only [workerStep, himg, hsurf]
    simp

/-- Witness for C7: two requests for `"404.webp"` against the empty
state under `env3` are both enqueued and, after two worker steps, the
cache holds `surf2` and both deliveries are scheduled. -/
theorem duplicate_requests_processed_witness :
    (request (request sMiss "404.webp" 1 140 210) "404.webp" 2 140 210).queue =
      [⟨"404.webp", "GET", 140, 210, 1⟩, ⟨"404.webp", "GET", 140, 210, 2⟩] ∧
    (workerStep env3 ["INF.png"] (workerStep env3 ["INF.png"]
      (request (request sMiss "404.webp" 1 140 210) "404.webp" 2 140 210))).cache
        "404.webp" = some surf2 := by
  have h := duplicate_requests_processed env3 ["INF.png"] sMiss "404.webp"
    1 2 140 210 img2 surf2 rfl rfl (by decide) (by decide)
  exact ⟨h.1, h.2.2.1⟩

/-- C9: a successful composite for a reference that already has a
cache entry overwrites that entry (`self.cache[url] = photo` is a dict
assignment): the subsequent lookup returns the new surface, the insert
neither fails nor no-ops, and entries for other references are
untouched. -/
theorem cache_insert_last_write_wins (env : Env) (fallbacks : List String)
    (s : LoaderState) (req : RenderRequest) (rest : List RenderRequest)
    (old : Surface) (img : RawImage) (surf : Surface)
    (hq : s.queue = req :: rest)
    (hold : s.cache req.url = some old)
    (himg : fetch_image env fallbacks req.url = some img)
    (hsurf : composite img req.width req.height env.cardHex env.maskOk = some surf) :
    (workerStep env fallbacks s).cache req.url = some surf ∧
    (∀ u, u ≠ req.url → (workerStep env fallbacks s).cache u = s.cache u) := by
  have hw : workerStep env fallbacks s =
      { s with
          queue := rest,
          cache := fun u => if u = req.url then some surf else s.cache u,
          uiPending := s.uiPending ++ [(req.label, surf)] } := by
    simp only [workerStep, hq, himg, hsurf]
  rw [hw]
  constructor
  · simp
  · intro u hu
    simp [hu]

/-- A stale surface standing for the first completed composite of
`"404.webp"`. -/
def surfOld : Surface :=
  { width := 9, height := 9, bg := (0, 0, 0),
    imgW := 9, imgH := 9, pasteX := 0, pasteY := 0, rounded := false }

/-- A loader state whose cache already maps `"404.webp"` to `surfOld`
while a second request for it sits in the queue. -/
def sDup : LoaderState :=
  { cache := fun u => if u = "404.webp" then some surfOld else none,
    queue := [⟨"404.webp", "GET", 140, 210, 4⟩],
    labels := fun _ => none,
    uiPending := [] }

/-- Witness for C9: processing the queued duplicate replaces the stale
9×9 entry with the fresh 140×210 surface. -/
theorem cache_insert_last_write_wins_witness :
    (workerStep env3 ["INF.png"] sDup).cache "404.webp" = some surf2 :=
  (cache_insert_last_write_wins env3 ["INF.png"] sDup
    ⟨"404.webp", "GET", 140, 210, 4⟩ [] surfOld img2 surf2 rfl (by decide)
    (by decide) (by decide)).1

/-- C10: the cache is keyed by the reference string alone, ignoring
the target size: for a cached reference, `request` with any `w, h`
yields a state that does not depend on `w, h` at all - the destination
receives the cached surface with the dimensions of the first completed
request (possibly differing from the requested size), and nothing is
enqueued, so no composite at the new size is ever produced. -/
theorem cache_keyed_by_reference_only (s : LoaderState) (url : String)
    (lbl : Nat) (surf : Surface) (hhit : s.cache url = some surf) :
    ∀ w h w2 h2,
      request s url lbl w h = request s url lbl w2 h2 ∧
      (request s url lbl w h).labels lbl = some surf ∧
      (request s url lbl w h).queue = s.queue ∧
      (request s url lbl w h).cache = s.cache := by
  intro w h w2 h2
  refine ⟨?_, ?_, ?_, ?_⟩ <;> simp [request, hhit]

/-- Witness for C10: requesting the cached reference `"a"` at 140×210
and at 640×480 produces identical states, and the delivered surface is
the 100×80 `surf0` of the first completed request, not the requested
size. -/
theorem cache_keyed_by_reference_only_witness :
    request sHit "a" 2 140 210 = request sHit "a" 2 640 480 ∧
    (request sHit "a" 2 140 210).labels 2 = some surf0 ∧
    surf0.width = 100 ∧ surf0.height = 80 := by
  have h := cache_keyed_by_reference_only sHit "a" 2 surf0 (by decide)
    140 210 640 480
  exact ⟨h.1, h.2.1, rfl, rfl⟩

end CineMatic
